import Mathlib

/-!
Shallow embedding of the domainforge daemon core (triplemcoder14/domainforge):
the in-memory domain Registry (`DomainForge` with `Add`, `Remove`, `List`,
`Shutdown`, `broadcastAll`) and the per-connection admin command handler
(`handleConnection` in main.go).

External collaborators (config store, local-IP resolver, mDNS advertiser,
Qules route synchronizer) are modelled as an oracle environment `Env`:
the embedded code only ever observes their success or failure, exactly as
the Go code does. Advertisement handles (bonjour servers) are modelled as
Nat identifiers allocated from a counter in a `World`; releasing a handle
(server.Shutdown() in Go) records the id in a release list, so that "the
advertisement is currently live" is expressible and a double release is
observable. log.Fatalln is modelled as a `fatal` outcome (the Go process
exits), a Go runtime panic as a `panicked` outcome.
-/

set_option autoImplicit false

namespace Forge

/-- Result of a registry operation: normal return with optional error
(Go `error`), or process termination via log.Fatalln. -/
inductive Res where
  | ok : Res
  | error : String → Res
  | fatal : String → Res
deriving DecidableEq, Repr

/-- One registered domain (struct Record in the Go source): the mDNS service
type string, the advertised host, and the advertisement handle (a *bonjour.Server
in Go, a Nat id here). -/
structure Record where
  service : String
  host : String
  server : Nat
deriving DecidableEq, Repr

/-- The registry (struct DomainForge): map from fullDomain key to Record.
Go uses map[string]*Record guarded by a mutex; we model it as an association
list (Add only inserts absent keys, so keys stay distinct). The mutex is not
modelled: every operation below is one critical section. -/
structure DomainForge where
  records : List (String × Record)
deriving DecidableEq, Repr

/-- NewDomainForge() : empty registry. -/
def NewDomainForge : DomainForge := ⟨[]⟩

/-- State of the external advertisement world: counter for fresh handle ids,
list of released handles (most recent first; a handle occurring twice was
released twice), and the daemon log lines (in order). -/
structure World where
  nextHandle : Nat
  released : List Nat
  logs : List String
deriving DecidableEq, Repr

/-- Initial world: no handle allocated, nothing released, no logs. -/
def initWorld : World := ⟨0, [], []⟩

/-- server.Shutdown() on an advertisement handle: record the release. -/
def release (w : World) (h : Nat) : World :=
  { w with released := h :: w.released }

/-- log.Printf: append a line to the daemon log. -/
def logline (w : World) (s : String) : World :=
  { w with logs := w.logs ++ [s] }

/-- A handle is live: it has been allocated and not released. -/
def live (w : World) (h : Nat) : Prop :=
  h < w.nextHandle ∧ h ∉ w.released

instance (w : World) (h : Nat) : Decidable (live w h) := by
  unfold live; infer_instance

/-- Oracle outcomes of the external collaborators, fixed for one operation:
utils.ReadConfig (some message = failure), utils.GetLocalIP (none = failure),
bonjour.RegisterProxy (false = failure), addQulesServerBlock
(some message = failure; the function lives outside the registry file and is
only observed through its error return). -/
structure Env where
  configErr : Option String
  localIP : Option String
  registerOk : Bool
  qulesErr : Option String
deriving DecidableEq, Repr

/-- Go map lookup df.records[k] (at most one binding per key). -/
def lookupRec : List (String × Record) → String → Option Record
  | [], _ => none
  | p :: ps, k => if p.1 == k then some p.2 else lookupRec ps k

/-- Go delete(df.records, k). -/
def eraseRec (rs : List (String × Record)) (k : String) : List (String × Record) :=
  rs.filter (fun p => !(p.1 == k))

/-- Drop leading whitespace characters. -/
def dropWs : List Char → List Char
  | [] => []
  | c :: cs => if c.isWhitespace then dropWs cs else c :: cs

/-- strings.TrimSpace: remove leading and trailing whitespace (ASCII
whitespace models the Go Unicode set for the inputs at hand). -/
def trimSpace (s : String) : String :=
  ⟨(dropWs ((dropWs s.data).reverse)).reverse⟩

/-- fullDomain as computed inside Add: strings.TrimSpace(domain) + ".local". -/
def fullDomain (domain : String) : String :=
  trimSpace domain ++ ".local"

/-- List(): snapshot of the registered fullDomain keys (Go map iteration
order is arbitrary; we return insertion order). -/
def listDomains (df : DomainForge) : List String :=
  df.records.map Prod.fst

/--
Add(domain, port), translated line by line from the Go source:
1. utils.ReadConfig(); on error return it.
2. utils.GetLocalIP(); on error log.Fatalln (process exits).
3. clean := TrimSpace(domain); fullDomain := clean + ".local";
   if present, return "domain %s already registered".
4. bonjour.RegisterProxy(...); on error log.Fatalln.
5. insert the Record under fullDomain.
6. addQulesServerBlock([fullDomain], port, config.QulesAdmin); on error:
   s1.Shutdown(); delete(df.records, domain)  -- note: raw domain, not
   fullDomain, exactly as in the source; return the wrapped error.
-/
def Add (env : Env) (df : DomainForge) (w : World) (domain : String) (port : Int) :
    Res × DomainForge × World :=
  match env.configErr with
  | some e => (.error e, df, w)
  | none =>
    match env.localIP with
    | none => (.fatal "Error getting local IP", df, w)
    | some _ =>
      let clean := trimSpace domain
      let fd := clean ++ ".local"
      match lookupRec df.records fd with
      | some _ => (.error ("domain " ++ fd ++ " already registered"), df, w)
      | none =>
        let fullHost := fd ++ "."
        let service := "_" ++ clean ++ "._tcp"
        if env.registerOk then
          let s1 := w.nextHandle
          let w1 : World := { w with nextHandle := w.nextHandle + 1 }
          let df1 : DomainForge := ⟨df.records ++ [(fd, ⟨service, fullHost, s1⟩)]⟩
          match env.qulesErr with
          | none => (.ok, df1, w1)
          | some e =>
            let w2 := release w1 s1
            let df2 : DomainForge := ⟨eraseRec df1.records domain⟩
            (.error ("failed to add Qules server block: " ++ e), df2, w2)
        else
          (.fatal "Error registering frontend service", df, w)

/--
Remove(domain), from the Go source: look up df.records[domain] (the raw
argument, no ".local" suffixing); if absent return "domain %s not registered";
otherwise record.server.Shutdown(), delete the entry, log "Removed domain: %s".
-/
def Remove (df : DomainForge) (w : World) (domain : String) :
    Res × DomainForge × World :=
  match lookupRec df.records domain with
  | none => (.error ("domain " ++ domain ++ " not registered"), df, w)
  | some record =>
    (.ok, ⟨eraseRec df.records domain⟩,
      logline (release w record.server) ("Removed domain: " ++ domain))

/--
Shutdown(), from the Go source: for every record, rec.server.Shutdown() and
log "Shutting down domain: %s". The map is not touched: no delete, no
reassignment of df.records.
-/
def Shutdown (df : DomainForge) (w : World) : DomainForge × World :=
  (df, df.records.foldl
    (fun w p => logline (release w p.2.server) ("Shutting down domain: " ++ p.1)) w)

/-- The per-record body of broadcastAll: release the current handle, then
re-register (failure is log.Fatalln in the source; the later
"continue" branch is dead code behind it). -/
def broadcastStep (regOk : Bool) :
    List (String × Record) → World → Res × List (String × Record) × World
  | [], w => (.ok, [], w)
  | p :: ps, w =>
    let w1 := release w p.2.server
    if regOk then
      let h := w1.nextHandle
      let w2 : World := { w1 with nextHandle := h + 1 }
      let rest := broadcastStep regOk ps w2
      (rest.1, (p.1, { p.2 with server := h }) :: rest.2.1, rest.2.2)
    else
      (.fatal "Error registering frontend service", p :: ps, w1)

/--
broadcastAll(), from the Go source: utils.GetLocalIP() once (failure is
log.Fatalln), then for every record: info.server.Shutdown(),
bonjour.RegisterProxy with the same service and host (failure is
log.Fatalln), info.server = new handle.
-/
def broadcastAll (env : Env) (df : DomainForge) (w : World) :
    Res × DomainForge × World :=
  match env.localIP with
  | none => (.fatal "Error getting local IP", df, w)
  | some _ =>
    let r := broadcastStep env.registerOk df.records w
    (r.1, ⟨r.2.1⟩, r.2.2)

/-- Accumulator pass behind fields: acc holds the current token reversed. -/
def fieldsCore (acc : List Char) : List Char → List String
  | [] => if acc.isEmpty then [] else [⟨acc.reverse⟩]
  | c :: cs =>
    if c.isWhitespace then
      if acc.isEmpty then fieldsCore [] cs else ⟨acc.reverse⟩ :: fieldsCore [] cs
    else fieldsCore (c :: acc) cs

/-- strings.Fields: whitespace-separated tokens, no empty tokens. -/
def fields (s : String) : List String :=
  fieldsCore [] s.data

/-- strconv.Atoi: optional sign, decimal digits, 64-bit range. -/
def goAtoi (s : String) : Option Int :=
  match s.toList with
  | [] => none
  | c :: rest =>
    let signed : Bool × List Char :=
      if c = '-' then (true, rest)
      else if c = '+' then (false, rest) else (false, c :: rest)
    match signed with
    | (neg, ds) =>
      if ds = [] then none
      else if ds.all Char.isDigit then
        let n : Nat := ds.foldl (fun acc d => acc * 10 + (d.toNat - 48)) 0
        let v : Int := if neg then -(n : Int) else (n : Int)
        if -9223372036854775808 ≤ v ∧ v ≤ 9223372036854775807 then some v else none
      else none

/-- Outcome of handling one admin connection: the response lines written to
the connection together with the post state (registry, world, whether the
shared done channel is closed), or a Go runtime panic, or process exit via
log.Fatalln inside a registry call. -/
inductive ConnOutcome where
  | reply : List String → DomainForge → World → Bool → ConnOutcome
  | panicked : ConnOutcome
  | fatalExit : String → ConnOutcome
deriving DecidableEq, Repr

/--
handleConnection (main.go): read one line, parts := strings.Fields(line),
cmd := parts[0] (a panic when parts is empty), then dispatch on cmd.
chClosed says whether the shared done channel has already been closed;
the stop branch runs close(ch) unconditionally, which panics on a closed
channel (Go channel semantics).
-/
def handleConnection (env : Env) (df : DomainForge) (w : World) (chClosed : Bool)
    (line : String) : ConnOutcome :=
  match fields line with
  | [] => .panicked
  | cmd :: _ =>
    let parts := fields line
    if cmd = "add" then
      match parts with
      | [_, domain, flag, portStr] =>
        if flag ≠ "--port" then
          .reply ["Invalid command. Usage: add <domain> --port <port>"] df w chClosed
        else
          match goAtoi portStr with
          | none => .reply ["Invalid port number: " ++ portStr] df w chClosed
          | some port =>
            match Add env df w domain port with
            | (.ok, df1, w1) =>
              .reply ["Added domain: " ++ domain ++ " with port: " ++ toString port]
                df1 w1 chClosed
            | (.error e, df1, w1) => .reply ["Error: " ++ e] df1 w1 chClosed
            | (.fatal e, _, _) => .fatalExit e
      | _ => .reply ["Invalid command. Usage: add <domain> --port <port>"] df w chClosed
    else if cmd = "remove" then
      match parts with
      | [_, domain] =>
        match Remove df w domain with
        | (.ok, df1, w1) => .reply ["Removed domain: " ++ domain] df1 w1 chClosed
        | (.error e, df1, w1) => .reply ["Error: " ++ e] df1 w1 chClosed
        | (.fatal e, _, _) => .fatalExit e
      | _ => .reply ["Invalid command. Usage: remove <domain>"] df w chClosed
    else if cmd = "list" then
      let domains := listDomains df
      if domains.length = 0 then
        .reply ["No domains registered"] df w chClosed
      else
        .reply ("Registered domains:" :: domains.map (fun d => "- " ++ d)) df w chClosed
    else if cmd = "stop" then
      if chClosed then .panicked else .reply [] df w true
    else
      .reply ["Unknown command"] df w chClosed

/-- The registry/advertisement coherence invariant of the spec: every Record
present in the registry holds a currently live advertisement handle. -/
def recordsLive (df : DomainForge) (w : World) : Prop :=
  ∀ p ∈ df.records, live w p.2.server

instance (df : DomainForge) (w : World) : Decidable (recordsLive df w) := by
  unfold recordsLive; infer_instance

/-- Sample environment with every external collaborator succeeding. -/
def envOk : Env := ⟨none, some "192.168.1.2", true, none⟩

/-- Sample environment where only the Qules route-synchronizer call fails. -/
def envQulesFail : Env := ⟨none, some "192.168.1.2", true, some "connection refused"⟩

/-- Registry state after a successful Add("hello", 3000) from the empty state. -/
def dfHello : DomainForge := ⟨[("hello.local", ⟨"_hello._tcp", "hello.local.", 0⟩)]⟩

/-- World after that successful Add: one handle allocated, none released. -/
def wHello : World := ⟨1, [], []⟩

/-- Closed form of the Shutdown fold: the handle counter is untouched, every
stored handle is pushed onto the release list, one log line is appended per
record. -/
theorem shutdown_foldl_spec (rs : List (String × Record)) (w : World) :
    rs.foldl (fun w p => logline (release w p.2.server) ("Shutting down domain: " ++ p.1)) w
      = ⟨w.nextHandle,
         (rs.map (fun p => p.2.server)).reverse ++ w.released,
         w.logs ++ rs.map (fun p => "Shutting down domain: " ++ p.1)⟩ := by
  induction rs generalizing w with
  | nil => simp
  | cons p ps ih =>
    rw [List.foldl_cons, ih]
    simp [release, logline, List.append_assoc]

/-- A broadcast pass with every re-registration succeeding returns ok and
keeps each key, service and host unchanged (only server handles change). -/
theorem broadcastStep_regOk (rs : List (String × Record)) (w : World) :
    (broadcastStep true rs w).1 = .ok
    ∧ (broadcastStep true rs w).2.1.map (fun p => (p.1, p.2.service, p.2.host))
        = rs.map (fun p => (p.1, p.2.service, p.2.host)) := by
  induction rs generalizing w with
  | nil => exact ⟨rfl, rfl⟩
  | cons p ps ih =>
    refine ⟨?_, ?_⟩ <;> simp [broadcastStep, (ih _).1, (ih _).2]

/-- Claim C1: the spec states that when the Route Synchronizer call inside
Add(name, port) fails, the fresh advertisement is released, the Record is not
present afterwards, a wrapped error is returned, and List() does not contain
fullDomain(name). On the code, Add("hello", 3000) with a failing Qules call
does release the advertisement (handle 0 is on the release list) and does
return the wrapped error, but the rollback executes delete(df.records, domain)
with the raw name "hello" while the Record is keyed by "hello.local", so the
Record survives and List() still contains "hello.local". -/
theorem add_qules_failure_leaves_record :
    Add envQulesFail NewDomainForge initWorld "hello" 3000
      = (.error "failed to add Qules server block: connection refused",
         dfHello, ⟨1, [0], []⟩)
    ∧ "hello.local" ∈ listDomains dfHello := by
  exact ⟨by decide, by decide⟩

/-- Claim C2: the spec states that after a successful Add("hello", 3000) the
admin command remove hello succeeds with response line Removed domain:
hello.local. On the code, Remove looks up the raw argument "hello" while the
record is keyed "hello.local", so the command answers Error: domain hello not
registered and the registry is unchanged (a later list still shows
hello.local, not No domains registered). -/
theorem remove_short_name_not_found :
    handleConnection envOk NewDomainForge initWorld false "add hello --port 3000"
      = .reply ["Added domain: hello with port: 3000"] dfHello wHello false
    ∧ handleConnection envOk dfHello wHello false "remove hello"
      = .reply ["Error: domain hello not registered"] dfHello wHello false := by
  exact ⟨by decide, by decide⟩

/-- Claim C3, counterexample: on the registry produced by a successful
Add("hello", 3000), Shutdown() does not leave the Registry empty (the map is
only iterated, never cleared), and a second Shutdown() call releases handle 0
a second time, refuting both the emptiness and the second-call-no-op parts of
the claim. -/
theorem shutdown_keeps_records_counterexample :
    (Shutdown dfHello wHello).1.records ≠ []
    ∧ (Shutdown (Shutdown dfHello wHello).1 (Shutdown dfHello wHello).2).2.released.count 0
        = 2 := by
  exact ⟨by decide, by decide⟩

/-- Claim C3, amended: Shutdown() releases every advertisement handle and logs
one line per record, but it leaves the records map untouched; consequently a
second Shutdown() iterates the same records and releases every handle a second
time. -/
theorem shutdown_releases_all_keeps_records (df : DomainForge) (w : World) :
    Shutdown df w
      = (df, ⟨w.nextHandle,
              (df.records.map (fun p => p.2.server)).reverse ++ w.released,
              w.logs ++ df.records.map (fun p => "Shutting down domain: " ++ p.1)⟩)
    ∧ (Shutdown (Shutdown df w).1 (Shutdown df w).2).2.released
        = (df.records.map (fun p => p.2.server)).reverse
            ++ ((df.records.map (fun p => p.2.server)).reverse ++ w.released) := by
  constructor <;> simp [Shutdown, shutdown_foldl_spec]

/-- Claim C4: the spec states the invariant that a Record is present in the
Registry if and only if its advertisement is live, over every reachable state.
On the code the state reached from the empty registry by a single Add whose
Qules call fails violates it: the rollback deletes the wrong key, so the
record stays while its advertisement handle has been released. -/
theorem registry_live_invariant_violated :
    (Add envQulesFail NewDomainForge initWorld "hello" 3000).1
        = .error "failed to add Qules server block: connection refused"
    ∧ ¬ recordsLive (Add envQulesFail NewDomainForge initWorld "hello" 3000).2.1
          (Add envQulesFail NewDomainForge initWorld "hello" 3000).2.2 := by
  exact ⟨by decide, by decide⟩

/-- Claim C5: the spec states that a Local-Network Resolver failure during Add
propagates as an error return and the process does not terminate. On the code,
Add calls log.Fatalln when utils.GetLocalIP fails, for every registry state,
name and port: the process exits and no error is returned to the caller. -/
theorem add_resolver_failure_fatal (rg : Bool) (q : Option String)
    (df : DomainForge) (w : World) (domain : String) (port : Int) :
    Add ⟨none, none, rg, q⟩ df w domain port
      = (.fatal "Error getting local IP", df, w) := rfl

/-- Claim C6: the spec states that every input line, including the empty line,
gets a usage or Unknown command response without crashing. On the code,
strings.Fields of the empty line is an empty slice and cmd := parts[0] panics
with an index-out-of-range runtime error, for every environment, registry
state and channel state. -/
theorem empty_line_panics (env : Env) (df : DomainForge) (w : World) (chClosed : Bool) :
    handleConnection env df w chClosed "" = .panicked := rfl

/-- Claim C7: for every registry state already containing fullDomain(name)
(as its single entry for that key, as Go map semantics guarantee), a second
Add with config load and resolver succeeding fails with the
already-registered error, leaves the registry and the advertisement world
unchanged, and List() still reports exactly one entry for fullDomain(name). -/
theorem add_duplicate_fails_unchanged (ip : String) (rg : Bool) (q : Option String)
    (df : DomainForge) (w : World) (name : String) (port : Int) (r : Record)
    (hmem : lookupRec df.records (fullDomain name) = some r)
    (hcount : (listDomains df).count (fullDomain name) = 1) :
    Add ⟨none, some ip, rg, q⟩ df w name port
      = (.error ("domain " ++ fullDomain name ++ " already registered"), df, w)
    ∧ (listDomains df).count (fullDomain name) = 1 := by
  refine ⟨?_, hcount⟩
  have hmem2 : lookupRec df.records (trimSpace name ++ ".local") = some r := hmem
  simp only [Add, hmem2]
  rfl

/-- Witness for claim C7 at a concrete registry holding hello.local. -/
theorem add_duplicate_fails_unchanged_witness :
    Add ⟨none, some "192.168.1.2", true, none⟩ dfHello wHello "hello" 3000
      = (.error ("domain " ++ fullDomain "hello" ++ " already registered"), dfHello, wHello)
    ∧ (listDomains dfHello).count (fullDomain "hello") = 1 :=
  add_duplicate_fails_unchanged "192.168.1.2" true none dfHello wHello "hello" 3000
    ⟨"_hello._tcp", "hello.local.", 0⟩ (by decide) (by decide)

/-- Claim C8: a Broadcaster tick (broadcastAll with the resolver and every
re-registration succeeding) returns normally and leaves the set of registered
domain names exactly unchanged; each Record keeps its key, service and host,
only the advertisement handle stored in it is replaced. -/
theorem broadcast_preserves_domains (ce q : Option String) (ip : String)
    (df : DomainForge) (w : World) :
    (broadcastAll ⟨ce, some ip, true, q⟩ df w).1 = .ok
    ∧ listDomains (broadcastAll ⟨ce, some ip, true, q⟩ df w).2.1 = listDomains df
    ∧ (broadcastAll ⟨ce, some ip, true, q⟩ df w).2.1.records.map
          (fun p => (p.1, p.2.service, p.2.host))
        = df.records.map (fun p => (p.1, p.2.service, p.2.host)) := by
  have h := broadcastStep_regOk df.records w
  refine ⟨h.1, ?_, h.2⟩
  have h2 := congrArg (List.map (fun t : String × String × String => t.1)) h.2
  simpa [listDomains, List.map_map, Function.comp] using h2

/-- Claim C9: Remove on a domain key not present in the registry fails with
the not-registered error and leaves the registry and the advertisement world
(so also the release list and the log) completely unchanged. -/
theorem remove_absent_unchanged (df : DomainForge) (w : World) (domain : String)
    (h : lookupRec df.records domain = none) :
    Remove df w domain
      = (.error ("domain " ++ domain ++ " not registered"), df, w) := by
  unfold Remove
  rw [h]

/-- Witness for claim C9: removing "nope" from the empty registry. -/
theorem remove_absent_unchanged_witness :
    Remove NewDomainForge initWorld "nope"
      = (.error ("domain " ++ "nope" ++ " not registered"), NewDomainForge, initWorld) :=
  remove_absent_unchanged NewDomainForge initWorld "nope" rfl

/-- Claim C10: the stop branch of the connection handler runs close(ch) with
no guard. The first stop command closes the shared done channel; a second
handler that processes stop after that closes an already-closed channel,
which panics by Go channel semantics — for every environment, registry state
and world. -/
theorem stop_twice_panics (env : Env) (df : DomainForge) (w : World) :
    handleConnection env df w false "stop" = .reply [] df w true
    ∧ handleConnection env df w true "stop" = .panicked :=
  ⟨rfl, rfl⟩

end Forge
